import Mathlib

/-!
Verification of the provider-argocd core: indirect server-address
resolution (`resolveServerAddress` in pkg/clients) and the ApplicationSet
external-client convergence operations (Connect/Observe/Create/Update/Delete).
Go pointers become `Option`, Go `(value, error)` pairs become
`String × Option String` (the error is the message string), byte slices
become `List Char`, and the Kubernetes client becomes an association-list
keyed store.
-/

/-! ### Configuration data model (apis/v1alpha1, as used by argocd_test.go) -/

/-- Namespaced object reference: fields `Name` and `Namespace` of
`v1alpha1.SourceReference`. -/
structure SourceReference where
  Name : String
  Namespace : String
deriving Repr, DecidableEq

/-- `v1alpha1.SourceSelector`: an embedded `SourceReference` plus the data `Key`. -/
structure SourceSelector where
  SourceReference : SourceReference
  Key : String
deriving Repr, DecidableEq

/-- `v1alpha1.ServerAddressSource` is a string-typed discriminant in Go. -/
abbrev ServerAddressSource := String

/-- Discriminant value for the `None` source. -/
def ServerAddressSourceNone : ServerAddressSource := "None"

/-- Discriminant value for the `Secret` source. -/
def ServerAddressSourceSecret : ServerAddressSource := "Secret"

/-- Discriminant value for the `ConfigMap` source. -/
def ServerAddressSourceConfigMap : ServerAddressSource := "ConfigMap"

/-- `v1alpha1.ServerReference`: a source discriminant and a selector. -/
structure ServerReference where
  Source : ServerAddressSource
  SourceSelector : SourceSelector
deriving Repr, DecidableEq

/-- `v1alpha1.ProviderConfigSpec`: an optional literal server address
(`ServerAddr`, a Go string pointer) and an optional indirect reference. -/
structure ProviderConfigSpec where
  ServerAddr : Option String := none
  ServerAddressReference : Option ServerReference := none
deriving Repr, DecidableEq

/-! ### Keyed store (the Kubernetes client as seen by the resolver) -/

/-- A Secret object: `Data` maps keys to byte values (`map[string][]byte`). -/
structure Secret where
  Data : List (String × List Char)
deriving Repr, DecidableEq

/-- A ConfigMap object: `Data` maps keys to string values (`map[string]string`). -/
structure ConfigMap where
  Data : List (String × String)
deriving Repr, DecidableEq

/-- The keyed store behind `client.Client`, restricted to what the resolver
reads: Secrets and ConfigMaps indexed by (namespace, name). -/
structure KubeClient where
  Secrets : List ((String × String) × Secret) := []
  ConfigMaps : List ((String × String) × ConfigMap) := []
deriving Repr

/-- The Kubernetes-style not-found error message, e.g.
`secrets "testsecret" not found`, as asserted by ErrorContains in the tests. -/
def notFoundErr (resource nm : String) : String :=
  resource ++ " \"" ++ nm ++ "\" not found"

/-- Store lookup of a Secret by (namespace, name); absence yields the store's
not-found failure, which the resolver must surface verbatim. -/
def KubeClient.getSecret (c : KubeClient) (ns nm : String) :
    Except String Secret :=
  match List.lookup (ns, nm) c.Secrets with
  | some s => Except.ok s
  | none => Except.error (notFoundErr "secrets" nm)

/-- Store lookup of a ConfigMap by (namespace, name). -/
def KubeClient.getConfigMap (c : KubeClient) (ns nm : String) :
    Except String ConfigMap :=
  match List.lookup (ns, nm) c.ConfigMaps with
  | some cm => Except.ok cm
  | none => Except.error (notFoundErr "configmaps" nm)

/-! ### Address resolution (pkg/clients/argocd.go) -/

/-- Modelled from the spec: the `NoAddressConfigured` error message constant
`errNoAddrSet` of pkg/clients/argocd.go (source file absent from src/; only
its test is present). -/
def errNoAddrSet : String := "no ArgoCD server address configured"

/-- Modelled from the spec: the `NoneSourceNotSupported` error message
constant `errNoneSourceType` of pkg/clients/argocd.go. -/
def errNoneSourceType : String := "server address source type None is not supported"

/-- Modelled from the spec: the `UnsupportedSourceType(name)` message built
from the format constant `errServerAdressTypeNotSupport`; it carries the
literal discriminant string. -/
def errServerAdressTypeNotSupport (nm : String) : String :=
  "server address source type " ++ nm ++ " is not supported"

/-- Modelled from the spec: the reference branch of `resolveServerAddress`
(pkg/clients/argocd.go, absent from src/), §4.1 steps 2–3: no reference →
`errNoAddrSet`; source `None` → `errNoneSourceType`; `Secret`/`ConfigMap` →
store lookup, propagating the store's failure verbatim, and on success
indexing the data map by the selector key where a missing key yields the
empty string with no error (Go zero-value indexing); any other discriminant →
`errServerAdressTypeNotSupport` carrying the discriminant. -/
def resolveAddressReference (c : KubeClient) (ref? : Option ServerReference) :
    String × Option String :=
  match ref? with
  | none => ("", some errNoAddrSet)
  | some ref =>
    if ref.Source = ServerAddressSourceNone then
      ("", some errNoneSourceType)
    else if ref.Source = ServerAddressSourceSecret then
      match c.getSecret ref.SourceSelector.SourceReference.Namespace
          ref.SourceSelector.SourceReference.Name with
      | Except.error e => ("", some e)
      | Except.ok s =>
        (String.mk ((List.lookup ref.SourceSelector.Key s.Data).getD []), none)
    else if ref.Source = ServerAddressSourceConfigMap then
      match c.getConfigMap ref.SourceSelector.SourceReference.Namespace
          ref.SourceSelector.SourceReference.Name with
      | Except.error e => ("", some e)
      | Except.ok cm =>
        ((List.lookup ref.SourceSelector.Key cm.Data).getD "", none)
    else
      ("", some (errServerAdressTypeNotSupport ref.Source))

/-- Modelled from the spec: `resolveServerAddress` of pkg/clients/argocd.go
(absent from src/; behaviour fixed by Test_resolveServerAddress and §4.1).
A set, non-empty literal `ServerAddr` is returned immediately and
short-circuits reference resolution; otherwise resolution falls through to
the reference branch. -/
def resolveServerAddress (c : KubeClient) (pc : ProviderConfigSpec) :
    String × Option String :=
  match pc.ServerAddr with
  | some addr =>
    if addr = "" then resolveAddressReference c pc.ServerAddressReference
    else (addr, none)
  | none => resolveAddressReference c pc.ServerAddressReference

/-! ### ApplicationSet controller (controller/applicationsets) -/

/-- `errNotApplicationSet` of the applicationsets controller. -/
def errNotApplicationSet : String :=
  "managed resource is not a ApplicationSet custom resource"

/-- The `v1alpha1.ApplicationSet` managed resource, reduced to the identity
the controller operations actually consume (they only type-assert and print
the record). -/
structure ApplicationSet where
  Name : String
deriving Repr, DecidableEq

/-- A `resource.Managed` value as it reaches the controller: either the
expected ApplicationSet kind or some other managed kind (the failed Go type
assertion). -/
inductive Managed where
  | applicationSet (cr : ApplicationSet)
  | otherKind (kind : String)
deriving Repr, DecidableEq

/-- `apiclient.ClientOptions`, the resolved connection configuration handed
to the client factory. -/
structure ClientOptions where
  ServerAddr : String
  AuthToken : String
deriving Repr, DecidableEq

/-- The `connector` struct, generic over the service-client type `A`
(`applications.ServiceClient`). `getConfig` stands for
`clients.GetConfig(ctx, c.kube, cr)` with the kube client baked in — a
collaborator call whose outcome Connect only propagates;
`newArgocdClientFn` is the client factory field. -/
structure connector (A : Type) where
  getConfig : ApplicationSet → Except String ClientOptions
  newArgocdClientFn : ClientOptions → A

/-- The `external` client struct, holding the bound service client. -/
structure external (A : Type) where
  client : A

/-- `connector.Connect`: type-assert the managed record, resolve the
configuration, and bind the factory-produced client into an `external`. -/
def connector.Connect {A : Type} (c : connector A) (mg : Managed) :
    Except String (external A) :=
  match mg with
  | Managed.otherKind _ => Except.error errNotApplicationSet
  | Managed.applicationSet cr =>
    match c.getConfig cr with
    | Except.error e => Except.error e
    | Except.ok cfg => Except.ok { client := c.newArgocdClientFn cfg }

/-- `managed.ConnectionDetails`: a name → secret-bytes mapping. -/
abbrev ConnectionDetails := List (String × List Char)

/-- `managed.ExternalObservation`. -/
structure ExternalObservation where
  ResourceExists : Bool
  ResourceUpToDate : Bool
  ConnectionDetails : ConnectionDetails
deriving Repr, DecidableEq

/-- `managed.ExternalCreation`. -/
structure ExternalCreation where
  ConnectionDetails : ConnectionDetails
deriving Repr, DecidableEq

/-- `managed.ExternalUpdate`. -/
structure ExternalUpdate where
  ConnectionDetails : ConnectionDetails
deriving Repr, DecidableEq

/-- `external.Observe` as written in the source: after the type assertion it
returns `ResourceExists: true, ResourceUpToDate: true` and empty connection
details unconditionally, never consulting `c.client` (the remote service). -/
def external.Observe {A : Type} (c : external A) (mg : Managed) :
    Except String ExternalObservation :=
  match mg with
  | Managed.otherKind _ => Except.error errNotApplicationSet
  | Managed.applicationSet _ =>
    Except.ok { ResourceExists := true, ResourceUpToDate := true,
                ConnectionDetails := [] }

/-- `external.Create`: after the type assertion, returns empty connection
details with no error and performs no remote call. -/
def external.Create {A : Type} (c : external A) (mg : Managed) :
    Except String ExternalCreation :=
  match mg with
  | Managed.otherKind _ => Except.error errNotApplicationSet
  | Managed.applicationSet _ => Except.ok { ConnectionDetails := [] }

/-- `external.Update`: after the type assertion, returns empty connection
details with no error and performs no remote call. -/
def external.Update {A : Type} (c : external A) (mg : Managed) :
    Except String ExternalUpdate :=
  match mg with
  | Managed.otherKind _ => Except.error errNotApplicationSet
  | Managed.applicationSet _ => Except.ok { ConnectionDetails := [] }

/-- `external.Delete`: after the type assertion, returns no error and
performs no remote call. -/
def external.Delete {A : Type} (c : external A) (mg : Managed) :
    Except String Unit :=
  match mg with
  | Managed.otherKind _ => Except.error errNotApplicationSet
  | Managed.applicationSet _ => Except.ok ()

/-! ### Claims about address resolution -/

/-- C3: for every configuration whose literal address pointer is set to a
non-empty value, `resolveServerAddress` returns that literal value with no
error, regardless of any server-address reference also being set — the
literal short-circuits all reference resolution. -/
theorem resolveServerAddress_literal_precedence
    (c : KubeClient) (pc : ProviderConfigSpec) (addr : String)
    (hset : pc.ServerAddr = some addr) (hne : addr ≠ "") :
    resolveServerAddress c pc = (addr, none) := by
  simp [resolveServerAddress, hset, hne]

/-- Witness for C3: the literal `no.where.example:8443` wins even with a
Secret reference also configured. -/
theorem resolveServerAddress_literal_precedence_witness :
    resolveServerAddress { Secrets := [], ConfigMaps := [] }
      { ServerAddr := some "no.where.example:8443",
        ServerAddressReference := some
          { Source := ServerAddressSourceSecret,
            SourceSelector :=
              { SourceReference := { Name := "testsecret", Namespace := "testns" },
                Key := "testkey" } } } =
      ("no.where.example:8443", none) :=
  resolveServerAddress_literal_precedence _ _ _ rfl (by decide)

/-- C4: with neither a literal address nor a server-address reference set,
`resolveServerAddress` returns the empty string together with the
`errNoAddrSet` error. -/
theorem resolveServerAddress_no_addr
    (c : KubeClient) (pc : ProviderConfigSpec)
    (h1 : pc.ServerAddr = none) (h2 : pc.ServerAddressReference = none) :
    resolveServerAddress c pc = ("", some errNoAddrSet) := by
  simp [resolveServerAddress, resolveAddressReference, h1, h2]

/-- Witness for C4: the all-unset configuration fails with `errNoAddrSet`. -/
theorem resolveServerAddress_no_addr_witness :
    resolveServerAddress { Secrets := [], ConfigMaps := [] }
      { ServerAddr := none, ServerAddressReference := none } =
      ("", some errNoAddrSet) :=
  resolveServerAddress_no_addr _ _ rfl rfl

/-- C6: a server-address reference with source discriminant `None` yields the
empty string together with `errNoneSourceType`, for every keyed store and
every selector contents. -/
theorem resolveServerAddress_none_source
    (c : KubeClient) (pc : ProviderConfigSpec) (ref : ServerReference)
    (h1 : pc.ServerAddr = none) (h2 : pc.ServerAddressReference = some ref)
    (h3 : ref.Source = ServerAddressSourceNone) :
    resolveServerAddress c pc = ("", some errNoneSourceType) := by
  simp [resolveServerAddress, resolveAddressReference, h1, h2, h3]

/-- Witness for C6: a `None`-source reference fails with `errNoneSourceType`. -/
theorem resolveServerAddress_none_source_witness :
    resolveServerAddress { Secrets := [], ConfigMaps := [] }
      { ServerAddr := none,
        ServerAddressReference := some
          { Source := ServerAddressSourceNone,
            SourceSelector :=
              { SourceReference := { Name := "testsecret", Namespace := "testns" },
                Key := "testkey" } } } =
      ("", some errNoneSourceType) :=
  resolveServerAddress_none_source _ _ _ rfl rfl rfl

/-- C7: a server-address reference with a discriminant that is none of
`None`, `Secret` or `ConfigMap` fails with the unsupported-source error, and
that error's message contains the literal discriminant string. -/
theorem resolveServerAddress_unsupported_source
    (c : KubeClient) (pc : ProviderConfigSpec) (ref : ServerReference)
    (h1 : pc.ServerAddr = none) (h2 : pc.ServerAddressReference = some ref)
    (hn : ref.Source ≠ ServerAddressSourceNone)
    (hs : ref.Source ≠ ServerAddressSourceSecret)
    (hc : ref.Source ≠ ServerAddressSourceConfigMap) :
    resolveServerAddress c pc =
      ("", some (errServerAdressTypeNotSupport ref.Source)) ∧
    ∃ p q, errServerAdressTypeNotSupport ref.Source = p ++ ref.Source ++ q := by
  constructor
  · simp [resolveServerAddress, resolveAddressReference, h1, h2, hn, hs, hc]
  · exact ⟨"server address source type ", " is not supported", by
      simp [errServerAdressTypeNotSupport, String.append_assoc]⟩

/-- Witness for C7: the discriminant `Anything` fails and appears verbatim in
the error message. -/
theorem resolveServerAddress_unsupported_source_witness :
    resolveServerAddress { Secrets := [], ConfigMaps := [] }
      { ServerAddr := none,
        ServerAddressReference := some
          { Source := "Anything",
            SourceSelector :=
              { SourceReference := { Name := "testsecret", Namespace := "testns" },
                Key := "testkey" } } } =
      ("", some (errServerAdressTypeNotSupport "Anything")) ∧
    ∃ p q, errServerAdressTypeNotSupport "Anything" = p ++ "Anything" ++ q :=
  resolveServerAddress_unsupported_source { Secrets := [], ConfigMaps := [] }
    { ServerAddr := none,
      ServerAddressReference := some
        { Source := "Anything",
          SourceSelector :=
            { SourceReference := { Name := "testsecret", Namespace := "testns" },
              Key := "testkey" } } }
    { Source := "Anything",
      SourceSelector :=
        { SourceReference := { Name := "testsecret", Namespace := "testns" },
          Key := "testkey" } }
    rfl rfl (by decide) (by decide) (by decide)

/-- C5: a Secret or ConfigMap reference whose target object exists in the
store and whose data map contains the selector's key resolves to exactly that
key's value — Secret byte values decoded to a string — with no error. -/
theorem resolveServerAddress_key_present
    (c : KubeClient) (pc : ProviderConfigSpec) (ref : ServerReference)
    (h1 : pc.ServerAddr = none) (h2 : pc.ServerAddressReference = some ref) :
    (∀ s v, ref.Source = ServerAddressSourceSecret →
      List.lookup (ref.SourceSelector.SourceReference.Namespace,
        ref.SourceSelector.SourceReference.Name) c.Secrets = some s →
      List.lookup ref.SourceSelector.Key s.Data = some v →
      resolveServerAddress c pc = (String.mk v, none)) ∧
    (∀ cm v, ref.Source = ServerAddressSourceConfigMap →
      List.lookup (ref.SourceSelector.SourceReference.Namespace,
        ref.SourceSelector.SourceReference.Name) c.ConfigMaps = some cm →
      List.lookup ref.SourceSelector.Key cm.Data = some v →
      resolveServerAddress c pc = (v, none)) := by
  constructor
  · intro s v hsrc hobj hkey
    simp [resolveServerAddress, resolveAddressReference, KubeClient.getSecret,
      h1, h2, hsrc, hobj, hkey, ServerAddressSourceSecret,
      ServerAddressSourceNone]
  · intro cm v hsrc hobj hkey
    simp [resolveServerAddress, resolveAddressReference,
      KubeClient.getConfigMap, h1, h2, hsrc, hobj, hkey,
      ServerAddressSourceConfigMap, ServerAddressSourceNone,
      ServerAddressSourceSecret]

/-- Witness for C5: a Secret holding `testkey ↦ "no.where.example:8443"`
resolves to that value. -/
theorem resolveServerAddress_key_present_witness :
    resolveServerAddress
      { Secrets := [(("testns", "testsecret"),
          { Data := [("testkey", "no.where.example:8443".toList)] })],
        ConfigMaps := [] }
      { ServerAddr := none,
        ServerAddressReference := some
          { Source := ServerAddressSourceSecret,
            SourceSelector :=
              { SourceReference := { Name := "testsecret", Namespace := "testns" },
                Key := "testkey" } } } =
      (String.mk "no.where.example:8443".toList, none) :=
  (resolveServerAddress_key_present
    { Secrets := [(("testns", "testsecret"),
        { Data := [("testkey", "no.where.example:8443".toList)] })],
      ConfigMaps := [] }
    { ServerAddr := none,
      ServerAddressReference := some
        { Source := ServerAddressSourceSecret,
          SourceSelector :=
            { SourceReference := { Name := "testsecret", Namespace := "testns" },
              Key := "testkey" } } }
    { Source := ServerAddressSourceSecret,
      SourceSelector :=
        { SourceReference := { Name := "testsecret", Namespace := "testns" },
          Key := "testkey" } }
    rfl rfl).1
    { Data := [("testkey", "no.where.example:8443".toList)] }
    "no.where.example:8443".toList rfl (by decide) (by decide)

/-- C1: the two miss kinds are treated asymmetrically. A Secret or ConfigMap
reference whose target object is absent from the store fails with the store's
own not-found error surfaced to the caller, while a reference whose target
object exists but whose data map lacks the selector's key succeeds with the
empty string and no error. -/
theorem resolveServerAddress_miss_asymmetry
    (c : KubeClient) (pc : ProviderConfigSpec) (ref : ServerReference)
    (h1 : pc.ServerAddr = none) (h2 : pc.ServerAddressReference = some ref) :
    (ref.Source = ServerAddressSourceSecret →
      List.lookup (ref.SourceSelector.SourceReference.Namespace,
        ref.SourceSelector.SourceReference.Name) c.Secrets = none →
      resolveServerAddress c pc =
        ("", some (notFoundErr "secrets" ref.SourceSelector.SourceReference.Name))) ∧
    (ref.Source = ServerAddressSourceConfigMap →
      List.lookup (ref.SourceSelector.SourceReference.Namespace,
        ref.SourceSelector.SourceReference.Name) c.ConfigMaps = none →
      resolveServerAddress c pc =
        ("", some (notFoundErr "configmaps" ref.SourceSelector.SourceReference.Name))) ∧
    (∀ s, ref.Source = ServerAddressSourceSecret →
      List.lookup (ref.SourceSelector.SourceReference.Namespace,
        ref.SourceSelector.SourceReference.Name) c.Secrets = some s →
      List.lookup ref.SourceSelector.Key s.Data = none →
      resolveServerAddress c pc = ("", none)) ∧
    (∀ cm, ref.Source = ServerAddressSourceConfigMap →
      List.lookup (ref.SourceSelector.SourceReference.Namespace,
        ref.SourceSelector.SourceReference.Name) c.ConfigMaps = some cm →
      List.lookup ref.SourceSelector.Key cm.Data = none →
      resolveServerAddress c pc = ("", none)) := by
  refine ⟨?_, ?_, ?_, ?_⟩
  · intro hsrc hobj
    simp [resolveServerAddress, resolveAddressReference, KubeClient.getSecret,
      h1, h2, hsrc, hobj, ServerAddressSourceSecret, ServerAddressSourceNone]
  · intro hsrc hobj
    simp [resolveServerAddress, resolveAddressReference,
      KubeClient.getConfigMap, h1, h2, hsrc, hobj,
      ServerAddressSourceConfigMap, ServerAddressSourceNone,
      ServerAddressSourceSecret]
  · intro s hsrc hobj hkey
    simp [resolveServerAddress, resolveAddressReference, KubeClient.getSecret,
      h1, h2, hsrc, hobj, hkey, ServerAddressSourceSecret,
      ServerAddressSourceNone, String.mk]
  · intro cm hsrc hobj hkey
    simp [resolveServerAddress, resolveAddressReference,
      KubeClient.getConfigMap, h1, h2, hsrc, hobj, hkey,
      ServerAddressSourceConfigMap, ServerAddressSourceNone,
      ServerAddressSourceSecret]

/-- Witness for C1: an empty store makes a Secret reference fail with the
store's not-found error. -/
theorem resolveServerAddress_miss_asymmetry_witness :
    resolveServerAddress { Secrets := [], ConfigMaps := [] }
      { ServerAddr := none,
        ServerAddressReference := some
          { Source := ServerAddressSourceSecret,
            SourceSelector :=
              { SourceReference := { Name := "testsecret", Namespace := "testns" },
                Key := "testkey" } } } =
      ("", some (notFoundErr "secrets" "testsecret")) :=
  (resolveServerAddress_miss_asymmetry { Secrets := [], ConfigMaps := [] }
    { ServerAddr := none,
      ServerAddressReference := some
        { Source := ServerAddressSourceSecret,
          SourceSelector :=
            { SourceReference := { Name := "testsecret", Namespace := "testns" },
              Key := "testkey" } } }
    { Source := ServerAddressSourceSecret,
      SourceSelector :=
        { SourceReference := { Name := "testsecret", Namespace := "testns" },
          Key := "testkey" } }
    rfl rfl).1 rfl rfl

/-! ### Claims about the ApplicationSet controller -/

/-- C8: Connect errors exactly when the record is not of the managed
ApplicationSet kind (with `errNotApplicationSet`) or when configuration
resolution fails (propagating that failure verbatim); otherwise it returns an
external client bound to the client the factory produces from the resolved
configuration. -/
theorem connector_Connect_spec {A : Type} (c : connector A) :
    (∀ k, c.Connect (Managed.otherKind k) = Except.error errNotApplicationSet) ∧
    (∀ cr e, c.getConfig cr = Except.error e →
      c.Connect (Managed.applicationSet cr) = Except.error e) ∧
    (∀ cr cfg, c.getConfig cr = Except.ok cfg →
      c.Connect (Managed.applicationSet cr) =
        Except.ok { client := c.newArgocdClientFn cfg }) := by
  refine ⟨fun k => rfl, fun cr e h => ?_, fun cr cfg h => ?_⟩ <;>
    simp [connector.Connect, h]

/-- Witness for C8: a connector whose configuration resolves successfully
yields a client bound to the factory's output on the resolved options. -/
theorem connector_Connect_spec_witness :
    connector.Connect
      { getConfig := fun _ =>
          Except.ok { ServerAddr := "no.where.example:8443", AuthToken := "token" },
        newArgocdClientFn := fun cfg => cfg.ServerAddr }
      (Managed.applicationSet { Name := "sample" }) =
      Except.ok { client := "no.where.example:8443" } :=
  (connector_Connect_spec
    { getConfig := fun _ =>
        Except.ok { ServerAddr := "no.where.example:8443", AuthToken := "token" },
      newArgocdClientFn := fun cfg => cfg.ServerAddr }).2.2
    { Name := "sample" }
    { ServerAddr := "no.where.example:8443", AuthToken := "token" } rfl

/-- C2: the source's Observe is a stub. Instantiating the service-client type
with the remote resource's state, a client observing an absent remote
ApplicationSet (`client := none`) still reports `ResourceExists := true` and
`ResourceUpToDate := true` — Observe never consults the remote service, so
the claimed tri-state result does not hold on the code as written. -/
theorem external_Observe_stub_ignores_remote :
    external.Observe { client := (none : Option ApplicationSet) }
      (Managed.applicationSet { Name := "example" }) =
      Except.ok { ResourceExists := true, ResourceUpToDate := true,
                  ConnectionDetails := [] } := rfl

/-- C9: Delete is idempotent — for every service-client state (in particular
one where the remote resource is already absent) and every record of the
managed kind, Delete returns no error; hence a second Delete on the same
external name never errors. -/
theorem external_Delete_idempotent {A : Type} (c : external A)
    (cr : ApplicationSet) :
    c.Delete (Managed.applicationSet cr) = Except.ok () := rfl

/-- C10: for every record of the managed kind, Observe, Create, Update and
Delete all return no error, and the connection details returned by Observe,
Create and Update are always empty. -/
theorem external_ops_no_error_no_details {A : Type} (c : external A)
    (cr : ApplicationSet) :
    (∃ obs, c.Observe (Managed.applicationSet cr) = Except.ok obs ∧
      obs.ConnectionDetails = []) ∧
    (∃ cre, c.Create (Managed.applicationSet cr) = Except.ok cre ∧
      cre.ConnectionDetails = []) ∧
    (∃ upd, c.Update (Managed.applicationSet cr) = Except.ok upd ∧
      upd.ConnectionDetails = []) ∧
    c.Delete (Managed.applicationSet cr) = Except.ok () :=
  ⟨⟨_, rfl, rfl⟩, ⟨_, rfl, rfl⟩, ⟨_, rfl, rfl⟩, rfl⟩
